import Mathlib

/-!
# Verification of `daemon/response.py` (p2pchat, WeApRous release)

Shallow embedding of the `Response` class from `src/daemon/response.py`.
Byte sequences are modelled as `List Nat` (one `Nat` per byte, < 256 for
real data); Python `str.encode("utf-8")` is modelled by an explicit UTF-8
encoder `utf8`.  The file system is modelled as a total map from file
paths to a `FileResult` (found with contents / not found / other I/O
error); mutation of files (the `return.json` truncation) is explicit
state passing.  Python exceptions of `prepare_content_type` are modelled
by `Option` (`none` = the `ValueError` escaping `split('/', 1)`
unpacking).  `datetime.utcnow()` (the `Date` header) and the
`os.path.dirname(os.path.dirname(os.path.abspath(__file__)))` project
root are nondeterministic/deployment inputs and are passed as explicit
parameters `date` and `root`.
-/

set_option autoImplicit false
set_option maxRecDepth 4096

/-- A byte sequence (Python `bytes`): one `Nat` per byte. -/
abbrev Bytes := List Nat

/-- UTF-8 encoding of a single character (code point), as bytes. -/
def utf8Char (c : Char) : Bytes :=
  let n := c.toNat
  if n < 0x80 then [n]
  else if n < 0x800 then [0xC0 + n / 0x40, 0x80 + n % 0x40]
  else if n < 0x10000 then
    [0xE0 + n / 0x1000, 0x80 + (n / 0x40) % 0x40, 0x80 + n % 0x40]
  else
    [0xF0 + n / 0x40000, 0x80 + (n / 0x1000) % 0x40,
     0x80 + (n / 0x40) % 0x40, 0x80 + n % 0x40]

/-- UTF-8 encoding of a string (Python `s.encode("utf-8")`). -/
def utf8 (s : String) : Bytes :=
  s.data.foldr (fun c acc => utf8Char c ++ acc) []

/-- Python `str.lstrip('/')`: drop leading slash characters. -/
def lstripSlash (s : String) : String :=
  ⟨s.data.dropWhile (fun c => c = '/')⟩

/-- `os.path.join(base, p)` for a relative `p` (as produced by
`lstripSlash`): empty base yields `p`; a base ending in `/` is
concatenated directly; otherwise a `/` separator is inserted. -/
def pathJoin (base p : String) : String :=
  if base = "" then p
  else if base.data.getLast? = some '/' then base ++ p
  else base ++ "/" ++ p

/-- `os.path.isabs`: the path starts with a slash. -/
def isAbs (s : String) : Bool :=
  match s.data with
  | '/' :: _ => true
  | _ => false

/-- Python `str.endswith(suffix)`. -/
def pyEndsWith (s suf : String) : Bool :=
  suf.data.isSuffixOf s.data

/-- `os.path.basename`: the part of the path after the last slash. -/
def fileName (s : String) : String :=
  ⟨(s.data.reverse.takeWhile (fun c => c ≠ '/')).reverse⟩

/-- Result of attempting to open and read one file. -/
inductive FileResult where
  | found (content : Bytes)
  | notFound
  | ioError
  deriving DecidableEq

/-- The file system: a total map from path strings to file results. -/
abbrev FS := String → FileResult

/-! ## JSON values and `json.dumps` -/

/-- A JSON value, as produced by the Python route handlers. -/
inductive Json where
  | null
  | bool (b : Bool)
  | num (n : Int)
  | str (s : String)
  | arr (xs : List Json)
  | obj (fields : List (String × Json))

/-- One hexadecimal digit, lowercase (as in Python `json` escapes). -/
def hexDigit (n : Nat) : Char :=
  if n < 10 then Char.ofNat (48 + n) else Char.ofNat (87 + n)

/-- Four-digit hexadecimal rendering of a code unit. -/
def hex4 (n : Nat) : String :=
  ⟨[hexDigit (n / 4096 % 16), hexDigit (n / 256 % 16),
    hexDigit (n / 16 % 16), hexDigit (n % 16)]⟩

/-- Escape of a single character inside a JSON string literal
(`json.dumps` default `ensure_ascii=True`). -/
def jsonEscChar (c : Char) : String :=
  if c = '"' then "\\\""
  else if c = '\\' then "\\\\"
  else if c = '\n' then "\\n"
  else if c = '\r' then "\\r"
  else if c = '\t' then "\\t"
  else if c.toNat = 8 then "\\b"
  else if c.toNat = 12 then "\\f"
  else if c.toNat < 0x20 ∨ c.toNat > 0x7e then
    if c.toNat < 0x10000 then "\\u" ++ hex4 c.toNat
    else "\\u" ++ hex4 (0xd800 + (c.toNat - 0x10000) / 0x400) ++
         "\\u" ++ hex4 (0xdc00 + (c.toNat - 0x10000) % 0x400)
  else String.singleton c

/-- A JSON string literal: quotes around the escaped characters. -/
def jsonQuote (s : String) : String :=
  "\"" ++ s.data.foldr (fun c acc => jsonEscChar c ++ acc) "" ++ "\""

mutual

/-- Python `json.dumps` with the default separators `', '` and `': '`. -/
def Json.dumps : Json → String
  | .null => "null"
  | .bool true => "true"
  | .bool false => "false"
  | .num n => toString n
  | .str s => jsonQuote s
  | .arr xs => "[" ++ Json.dumpsList xs ++ "]"
  | .obj kvs => "\x7b" ++ Json.dumpsObj kvs ++ "\x7d"

/-- Comma-separated rendering of the elements of a JSON array. -/
def Json.dumpsList : List Json → String
  | [] => ""
  | [x] => Json.dumps x
  | x :: y :: rest => Json.dumps x ++ ", " ++ Json.dumpsList (y :: rest)

/-- Comma-separated rendering of the key/value pairs of a JSON object. -/
def Json.dumpsObj : List (String × Json) → String
  | [] => ""
  | [(k, v)] => jsonQuote k ++ ": " ++ Json.dumps v
  | (k, v) :: kv :: rest =>
      jsonQuote k ++ ": " ++ Json.dumps v ++ ", " ++ Json.dumpsObj (kv :: rest)

end

/-! ## The `Response` state -/

/-- A header value as stored in the Python `headers` dict: a string, an
integer (`Content-Length` is assigned `len(...)`), or a list of strings
(only `Set-Cookie`). -/
inductive HVal where
  | str (s : String)
  | num (n : Nat)
  | strs (xs : List String)

/-- The `reason` field: `None`, a plain string, or — transiently — a
structured JSON payload (a Python `list` or `dict`, the two types
matched by `isinstance(self.reason, (dict, list))`). -/
inductive ReasonVal where
  | none
  | str (s : String)
  | jarr (xs : List Json)
  | jobj (kvs : List (String × Json))

/-- `isinstance(self.reason, (dict, list))`. -/
def ReasonVal.isStructured : ReasonVal → Bool
  | .jarr _ => true
  | .jobj _ => true
  | _ => false

/-- The JSON value held by a structured `reason` (`Json.null` otherwise;
only used under an `isStructured` guard). -/
def ReasonVal.toJson : ReasonVal → Json
  | .jarr xs => Json.arr xs
  | .jobj kvs => Json.obj kvs
  | _ => Json.null

/-- Discriminator: `reason` holds a plain string. -/
def ReasonVal.isPlainStr : ReasonVal → Bool
  | .str _ => true
  | _ => false

/-- Insertion-ordered string-keyed dictionary (Python `dict`). -/
abbrev Headers := List (String × HVal)

/-- Python `d[k] = v`: update in place if the key exists, else append. -/
def setH : Headers → String → HVal → Headers
  | [], k, v => [(k, v)]
  | (k', v') :: rest, k, v =>
      if k' = k then (k, v) :: rest else (k', v') :: setH rest k v

/-- Python `d.get(k)` (`None` when absent). -/
def getH : Headers → String → Option HVal
  | [], _ => Option.none
  | (k', v') :: rest, k => if k' = k then some v' else getH rest k

/-- Python `d.get(k, default)` on a string-valued dict. -/
def getSD : List (String × String) → String → String → String
  | [], _, d => d
  | (k', v') :: rest, k, d => if k' = k then v' else getSD rest k d

/-- The originating request, consumed read-only (`request.path`,
`request.method`, `request.headers`). -/
structure Request where
  path : String
  method : String
  headers : List (String × String)

/-- The mutable per-request `Response` state: the fields of `__init__`
that the claims touch (`url`, `encoding`, `history`, `elapsed` and the
`_content`/`_header` caches carry no behavior here). `cookies` models
the `CaseInsensitiveDict` (defined outside this module) as an
insertion-ordered association list. -/
structure ResponseState where
  status_code : Option Nat
  reason : ReasonVal
  headers : Headers
  cookies : List (String × String)

/-- The state a fresh `Response()` starts in (`__init__`). -/
def Response.init : ResponseState :=
  { status_code := Option.none, reason := .none, headers := [], cookies := [] }

/-! ## `get_mime_type` and `prepare_content_type` -/

/-- The process-wide base-directory constant `BASE_DIR = ""`. -/
def BASE_DIR : String := ""

/-- Lowercased file extension (last dot onward of the basename), the key
`mimetypes.guess_type` looks up; `""` when there is no dot. -/
def extOf (path : String) : String :=
  let fname := (fileName path).data
  if fname.contains '.' then
    ⟨'.' :: ((fname.reverse.takeWhile (fun c => c ≠ '.')).reverse.map Char.toLower)⟩
  else ""

/-- The extension table behind `mimetypes.guess_type` (the entries
relevant to this server's content directories). -/
def mimeTable : List (String × String) :=
  [(".html", "text/html"), (".htm", "text/html"), (".css", "text/css"),
   (".js", "text/javascript"), (".json", "application/json"),
   (".txt", "text/plain"), (".csv", "text/csv"), (".xml", "text/xml"),
   (".png", "image/png"), (".jpg", "image/jpeg"), (".jpeg", "image/jpeg"),
   (".gif", "image/gif"), (".ico", "image/vnd.microsoft.icon"),
   (".mp4", "video/mp4"), (".pdf", "application/pdf")]

/-- `Response.get_mime_type`: extension lookup via `mimetypes.guess_type`
with fallback `'application/octet-stream'` (`mime_type or '...'`). -/
def get_mime_type (path : String) : String :=
  match mimeTable.find? (fun e => e.1 = extOf path) with
  | some e => e.2
  | Option.none => "application/octet-stream"

/-- Helper for `splitOnceSlash`: scan for the first slash, accumulating
the characters before it (in reverse). -/
def splitSlashAux : List Char → List Char → Option (String × String)
  | [], _ => Option.none
  | c :: cs, acc =>
      if c = '/' then some (⟨acc.reverse⟩, ⟨cs⟩) else splitSlashAux cs (c :: acc)

/-- Python `mime_type.split('/', 1)`: split at the first slash.  `none`
models the `ValueError` raised by unpacking when there is no slash. -/
def splitOnceSlash (s : String) : Option (String × String) :=
  splitSlashAux s.data []

/-- `Response.prepare_content_type`: map a MIME type to a base storage
directory, setting `headers['Content-Type']` as a side effect.  `none`
models the `ValueError` escaping when the MIME string has no `/` (the
unpacking happens before the header assignment, so the state is
unchanged in that case). -/
def prepare_content_type (hd : Headers) (mime_type : String) :
    Option (String × Headers) :=
  match splitOnceSlash mime_type with
  | Option.none => Option.none
  | some (main_type, sub_type) =>
    let hd := setH hd "Content-Type" (.str mime_type)
    let base_dir :=
      if main_type = "text" then
        if sub_type = "plain" ∨ sub_type = "css" ∨ sub_type = "csv" ∨ sub_type = "xml" then
          BASE_DIR ++ "static/"
        else if sub_type = "html" then BASE_DIR ++ "www/"
        else BASE_DIR ++ "static/"
      else if main_type = "image" then BASE_DIR ++ "static/"
      else if main_type = "application" then BASE_DIR ++ "apps/"
      else if main_type = "video" then BASE_DIR ++ "video/"
      else BASE_DIR ++ "static/"
    some (base_dir, hd)

/-! ## `build_content` -/

/-- The file path `build_content` actually opens:
`os.path.join(base_dir, path.lstrip('/'))`. -/
def contentPath (base_dir path : String) : String :=
  pathJoin base_dir (lstripSlash path)

/-- `Response.build_content`: read the file as raw bytes; on success,
if `path.endswith("return.json")`, truncate the file to empty (the
legacy one-shot consume-and-clear); any failure yields `(0, b"")`.
Returns `((length, content), new file system)`. -/
def build_content (path base_dir : String) (fs : FS) : (Nat × Bytes) × FS :=
  let filepath := contentPath base_dir path
  match fs filepath with
  | .found content =>
    let fs' :=
      if pyEndsWith path "return.json" then
        fun p => if p = filepath then .found [] else fs p
      else fs
    ((content.length, content), fs')
  | .notFound => ((0, []), fs)
  | .ioError => ((0, []), fs)

/-! ## `build_response_header` -/

/-- The status-code part of the status line: Python `f"{self.status_code}"`
renders `None` as the text `None`. -/
def statusStr : Option Nat → String
  | Option.none => "None"
  | some n => toString n

/-- The reason rendered into the status line: a structured (dict/list)
reason or a falsy one (`None`, `""`) displays as `"OK"`. -/
def displayReason : ReasonVal → String
  | .jarr _ => "OK"
  | .jobj _ => "OK"
  | .none => "OK"
  | .str s => if s = "" then "OK" else s

/-- One `k: v\r\n` header line (or several, for a list-valued header). -/
def renderHVal (k : String) (v : HVal) : String :=
  match v with
  | .str s => k ++ ": " ++ s ++ "\r\n"
  | .num n => k ++ ": " ++ toString n ++ "\r\n"
  | .strs xs => renderStrs k xs
where
  /-- The `for item in v` loop of the renderer. -/
  renderStrs (k : String) : List String → String
    | [] => ""
    | item :: rest => k ++ ": " ++ item ++ "\r\n" ++ renderStrs k rest

/-- The `for k, v in headers.items()` accumulation loop. -/
def renderHeaderLines : Headers → String
  | [] => ""
  | (k, v) :: rest => renderHVal k v ++ renderHeaderLines rest

/-- The `headers` dict literal built inside `build_response_header`
(with the `Set-Cookie` assignment applied when cookies are present).
`date` stands for `datetime.datetime.utcnow().strftime(...)`. -/
def respHdrDict (req : Request) (r : ResponseState) (date : String) : Headers :=
  let reqhdr := req.headers
  let c_type := (getH r.headers "Content-Type").getD (.str "application/octet-stream")
  let c_len := (getH r.headers "Content-Length").getD (.str "0")
  let hdrs : Headers :=
    [("Accept", .str (getSD reqhdr "Accept" "application/json")),
     ("Accept-Language", .str (getSD reqhdr "Accept-Language" "en-US,en;q=0.9")),
     ("Cache-Control", .str "no-cache"),
     ("Content-Type", c_type),
     ("Content-Length", c_len),
     ("Date", .str date),
     ("Server", .str "WeApRous/1.0"),
     ("Connection", .str "close")]
  if r.cookies.isEmpty then hdrs
  else setH hdrs "Set-Cookie" (.strs (r.cookies.map (fun kv => kv.1 ++ "=" ++ kv.2)))

/-- `Response.build_response_header`, before the final `.encode("utf-8")`:
status line, the fixed/derived header block (with `Set-Cookie` lines
appended when cookies are present), and the terminating blank line. -/
def responseHeaderString (req : Request) (r : ResponseState) (date : String) :
    String :=
  let status_line :=
    "HTTP/1.1 " ++ statusStr r.status_code ++ " " ++ displayReason r.reason ++ "\r\n"
  status_line ++ renderHeaderLines (respHdrDict req r date) ++ "\r\n"

/-- `Response.build_response_header`: the header block, UTF-8 encoded. -/
def build_response_header (req : Request) (r : ResponseState) (date : String) :
    Bytes :=
  utf8 (responseHeaderString req r date)

/-! ## Fixed error responses -/

/-- The constant string behind `build_notfound`. -/
def notfoundString : String :=
  "HTTP/1.1 404 Not Found\r\n" ++
  "Content-Type: text/html\r\n" ++
  "Content-Length: 13\r\n" ++
  "Connection: close\r\n" ++
  "\r\n" ++
  "404 Not Found"

/-- `Response.build_notfound`: a hand-built constant 404 response; it
reads none of the `Response` fields. -/
def build_notfound (_r : ResponseState) : Bytes :=
  utf8 notfoundString

/-- `Response.build_unauthorized`: a hand-built constant 401 response
with `Content-Length` computed from `len(body)`. -/
def build_unauthorized (_r : ResponseState) : Bytes :=
  let body := "401 Unauthorized"
  utf8 ("HTTP/1.1 401 Unauthorized\r\n" ++
        "Content-Type: text/plain\r\n" ++
        "Content-Length: " ++ toString body.length ++ "\r\n" ++
        "Connection: close\r\n" ++
        "\r\n" ++ body)

/-! ## `build_response` -/

/-- The result of `build_response`: the returned bytes, the mutated
`Response` state, and the (possibly truncated) file system. -/
structure BuildOut where
  bytes : Bytes
  state : ResponseState
  fs : FS

/-- Steps 4 of `build_response` (shared tail of the file-backed
branches): read the content, store `Content-Type`/`Content-Length`,
default the status to `200 OK` if unset, render the header and append
the body. -/
def finishFile (req : Request) (r : ResponseState) (fs : FS)
    (path mime_type base_dir date : String) : BuildOut :=
  let res := build_content path base_dir fs
  let c_len := res.1.1
  let content := res.1.2
  let fs := res.2
  let r := { r with
    headers := setH (setH r.headers "Content-Type" (.str mime_type))
                    "Content-Length" (.num c_len) }
  let r :=
    if r.status_code = Option.none then
      { r with status_code := some 200, reason := .str "OK" }
    else r
  { bytes := utf8 (responseHeaderString req r date) ++ content,
    state := r, fs := fs }

/-- `Response.build_response`: the top-level orchestration.  `root`
models the computed project root
(`os.path.dirname(os.path.dirname(os.path.abspath(__file__)))`) and
`date` the rendered current time.

Branch 1 (dynamic data): a structured `reason` is serialized as the
JSON body.  Branch 2: the two API path rewrites to database files.
Branch 3 (static fallback): octet-stream is coerced to JSON, the base
directory is resolved (a raised resolution error yields the constant
404), a relative base directory is joined under the project root.
Branch 4 is `finishFile`. -/
def build_response (req : Request) (r : ResponseState) (fs : FS)
    (root date : String) : BuildOut :=
  if r.reason.isStructured then
    let json_bytes := utf8 (Json.dumps r.reason.toJson)
    let r := { r with
      status_code := some (r.status_code.getD 200),
      reason := .str "OK",
      headers := setH (setH r.headers "Content-Type" (.str "application/json"))
                      "Content-Length" (.num json_bytes.length) }
    { bytes := utf8 (responseHeaderString req r date) ++ json_bytes,
      state := r, fs := fs }
  else
    let path := req.path
    let mime_type := get_mime_type path
    if path = "/api/get-messages" ∨ path = "/api/get-message" then
      finishFile req r fs "db/message.json" "application/json" root date
    else if path = "/api/get-users" then
      finishFile req r fs "db/user.json" "application/json" root date
    else
      let mime_type :=
        if mime_type = "application/octet-stream" then "application/json"
        else mime_type
      match prepare_content_type r.headers mime_type with
      | Option.none => { bytes := build_notfound r, state := r, fs := fs }
      | some (bd, headers') =>
        let r := { r with headers := headers' }
        let base_dir := if isAbs bd then bd else pathJoin root bd
        finishFile req r fs path mime_type base_dir date

/-! ## Derived definitions used by the claims -/

/-- The MIME type after the octet-stream → JSON coercion of branch 3 of
`build_response`. -/
def effectiveMime (path : String) : String :=
  if get_mime_type path = "application/octet-stream" then "application/json"
  else get_mime_type path

/-- The Content-Length line asserted by claim C3. -/
def clLine (n : Nat) : String := "Content-Length: " ++ toString n ++ "\r\n"

/-- The Content-Type line asserted by claim C8. -/
def ctLine (m : String) : String := "Content-Type: " ++ m ++ "\r\n"

/-- Claim-level predicate: the output splits as a UTF-8 header block
ending in a blank line followed by the body, and the header block
carries a `Content-Length` line stating exactly the body's byte count. -/
def contentLengthExact (out : Bytes) : Prop :=
  ∃ hdr body, out = utf8 hdr ++ body ∧
    ("\r\n\r\n").data <:+ hdr.data ∧
    (clLine body.length).data <:+: hdr.data

/-! ## Concrete inputs for witnesses and counterexamples -/

/-- A concrete static-file request. -/
def reqW : Request := { path := "/index.html", method := "GET", headers := [] }

/-- A concrete `/api/get-users` request. -/
def reqUsers : Request := { path := "/api/get-users", method := "GET", headers := [] }

/-- An empty file system. -/
def fsEmpty : FS := fun _ => .notFound

/-- A file system holding a two-byte `db/user.json` under root `/r`. -/
def fsUsers : FS := fun p => if p = "/r/db/user.json" then .found [104, 105] else .notFound

/-- A file system holding a non-empty `return.json`. -/
def fsRet : FS := fun p => if p = "return.json" then .found [49, 50] else .notFound

/-- A file system holding a non-empty `xreturn.json`. -/
def fsC4 : FS := fun p => if p = "xreturn.json" then .found [49] else .notFound

/-- A fresh response state. -/
def rPlain : ResponseState := Response.init

/-- A response state carrying a structured (dict) `reason`. -/
def rJson : ResponseState := { Response.init with reason := .jobj [("a", Json.num 1)] }

/-- A response state with a pre-set status code and `reason = None`. -/
def rPre : ResponseState := { Response.init with status_code := some 201 }

/-! ## Dictionary lemmas -/

theorem getH_setH_self (hd : Headers) (k : String) (v : HVal) :
    getH (setH hd k v) k = some v := by
  induction hd with
  | nil => simp [setH, getH]
  | cons e rest ih =>
    by_cases he : e.1 = k
    · simp [setH, getH, he]
    · simp [setH, getH, he, ih]

theorem getH_setH_ne (hd : Headers) (k k' : String) (v : HVal) (h : k ≠ k') :
    getH (setH hd k v) k' = getH hd k' := by
  induction hd with
  | nil => simp [setH, getH, h]
  | cons e rest ih =>
    by_cases he : e.1 = k
    · simp [setH, getH, he, h]
    · simp [setH, getH, he, ih]

/-! ## List infix/suffix helpers -/

theorem infix_cons {α : Type} (a : List α) {l b : List α} (h : l <:+: b) :
    l <:+: a ++ b := by
  obtain ⟨s, t, hst⟩ := h
  exact ⟨a ++ s, t, by rw [← hst]; simp [List.append_assoc]⟩

theorem infix_head {α : Type} {l r : List α} : l <:+: l ++ r :=
  ⟨[], r, by simp⟩

theorem suffix_cons {α : Type} (a : List α) {l b : List α} (h : l <:+ b) :
    l <:+ a ++ b := by
  obtain ⟨s, hs⟩ := h
  exact ⟨a ++ s, by rw [← hs]; simp [List.append_assoc]⟩

/-! ## Renderer lemmas -/

theorem renderHVal_str (k s : String) :
    renderHVal k (.str s) = k ++ ": " ++ s ++ "\r\n" := rfl

theorem renderHVal_num (k : String) (n : Nat) :
    renderHVal k (.num n) = k ++ ": " ++ toString n ++ "\r\n" := rfl

theorem renderHVal_strs (k : String) (xs : List String) :
    renderHVal k (.strs xs) = renderHVal.renderStrs k xs := rfl

theorem renderHeaderLines_append (a b : Headers) :
    renderHeaderLines (a ++ b) = renderHeaderLines a ++ renderHeaderLines b := by
  induction a with
  | nil => simp [renderHeaderLines]
  | cons e rest ih =>
    apply String.ext
    simp [renderHeaderLines, ih, String.data_append, List.append_assoc]

theorem renderStrs_ends (k : String) (xs : List String) (h : xs ≠ []) :
    ∃ A : String, renderHVal.renderStrs k xs = A ++ "\r\n" := by
  induction xs with
  | nil => exact absurd rfl h
  | cons x rest ih =>
    cases rest with
    | nil =>
      refine ⟨k ++ ": " ++ x, ?_⟩
      apply String.ext
      simp [renderHVal.renderStrs, String.data_append]
    | cons y t =>
      obtain ⟨A, hA⟩ := ih (by simp)
      refine ⟨k ++ ": " ++ x ++ "\r\n" ++ A, ?_⟩
      have hstep : renderHVal.renderStrs k (x :: y :: t) =
          k ++ ": " ++ x ++ "\r\n" ++ renderHVal.renderStrs k (y :: t) := rfl
      rw [hstep, hA]
      apply String.ext
      simp [String.data_append, List.append_assoc]

/-! ## Content loader and resolver lemmas -/

theorem build_content_len (path base : String) (fs : FS) :
    (build_content path base fs).1.1 = (build_content path base fs).1.2.length := by
  cases h : fs (contentPath base path) <;> simp [build_content, h]

theorem effectiveMime_hasSlash (path : String) :
    (splitOnceSlash (effectiveMime path)).isSome := by
  unfold effectiveMime get_mime_type
  cases h : mimeTable.find? (fun e => e.1 = extOf path) with
  | none =>
    simp [h]
    decide
  | some e =>
    have he := List.mem_of_find?_eq_some h
    have hall : ∀ x ∈ mimeTable,
        (splitOnceSlash (if x.2 = "application/octet-stream" then "application/json" else x.2)).isSome := by
      decide
    simpa [h] using hall e he

theorem prepare_some (hd : Headers) (m : String) (h : (splitOnceSlash m).isSome) :
    ∃ bd, prepare_content_type hd m = some (bd, setH hd "Content-Type" (.str m)) := by
  unfold prepare_content_type
  cases hs : splitOnceSlash m with
  | none => rw [hs] at h; cases h
  | some p => exact ⟨_, rfl⟩

/-! ## Header-block shape lemmas -/

theorem str_append_empty (s : String) : s ++ "" = s := by
  apply String.ext
  simp [String.data_append]

theorem infix_concat {α : Type} (c : List α) {l b : List α} (h : l <:+: b) :
    l <:+: b ++ c := by
  obtain ⟨s, t, hst⟩ := h
  exact ⟨s, t ++ c, by rw [← hst]; simp [List.append_assoc]⟩

theorem renderHVal_ends (k : String) (v : HVal) :
    renderHVal k v = "" ∨ ∃ A, renderHVal k v = A ++ "\r\n" := by
  cases v with
  | str s => exact Or.inr ⟨k ++ ": " ++ s, rfl⟩
  | num n => exact Or.inr ⟨k ++ ": " ++ toString n, rfl⟩
  | strs xs =>
    cases xs with
    | nil => exact Or.inl rfl
    | cons x rest => exact Or.inr (renderStrs_ends k (x :: rest) (by simp))

theorem renderHeaderLines_ends (hs : Headers) :
    renderHeaderLines hs = "" ∨ ∃ A, renderHeaderLines hs = A ++ "\r\n" := by
  induction hs with
  | nil => exact Or.inl rfl
  | cons e rest ih =>
    obtain ⟨k, v⟩ := e
    rcases ih with h | ⟨A, hA⟩
    · rcases renderHVal_ends k v with h2 | ⟨B, hB⟩
      · left
        simp [renderHeaderLines, h, h2, str_append_empty]
      · right
        exact ⟨B, by simp [renderHeaderLines, h, hB, str_append_empty]⟩
    · right
      refine ⟨renderHVal k v ++ A, ?_⟩
      rw [renderHeaderLines, hA, ← String.append_assoc]

theorem renderHeaderLines_mem_line {hs : Headers} {k : String} {v : HVal}
    (h : (k, v) ∈ hs) :
    (renderHVal k v).data <:+: (renderHeaderLines hs).data := by
  induction hs with
  | nil => cases h
  | cons e rest ih =>
    obtain ⟨k', v'⟩ := e
    rcases List.mem_cons.mp h with heq | hm
    · injection heq with h1 h2
      subst h1
      subst h2
      rw [renderHeaderLines]
      simp only [String.data_append]
      exact infix_head
    · rw [renderHeaderLines]
      simp only [String.data_append]
      exact infix_cons _ (ih hm)

theorem suffix_crlf2 {s t : String} (hs : ∃ P, s = P ++ "\r\n")
    (ht : t = "" ∨ ∃ A, t = A ++ "\r\n") :
    ("\r\n\r\n").data <:+ (s ++ t ++ "\r\n").data := by
  obtain ⟨P, rfl⟩ := hs
  rcases ht with rfl | ⟨A, rfl⟩
  · simp only [String.data_append, str_append_empty, List.append_assoc]
    exact suffix_cons _ (by decide)
  · simp only [String.data_append, List.append_assoc]
    exact suffix_cons _ (suffix_cons _ (suffix_cons _ (by decide)))

/-- Every rendered header block ends with a blank line (`\r\n\r\n`). -/
theorem respHdr_ends (req : Request) (r : ResponseState) (date : String) :
    ("\r\n\r\n").data <:+ (responseHeaderString req r date).data := by
  simp only [responseHeaderString]
  exact suffix_crlf2 ⟨_, rfl⟩ (renderHeaderLines_ends _)

/-- Every entry of the header dict appears as its rendered line(s)
inside the rendered header block. -/
theorem respHdr_mem_line {req : Request} {r : ResponseState} {date : String}
    {k : String} {v : HVal} (h : (k, v) ∈ respHdrDict req r date) :
    (renderHVal k v).data <:+: (responseHeaderString req r date).data := by
  simp only [responseHeaderString, String.data_append, List.append_assoc]
  exact infix_cons _ (infix_cons _ (infix_cons _ (infix_cons _ (infix_cons _
    (infix_concat _ (renderHeaderLines_mem_line h))))))

/-- The `Content-Length` dict entry is rendered from the stored value. -/
theorem mem_respHdrDict_cl {req : Request} {r : ResponseState} {date : String}
    {n : Nat} (h : getH r.headers "Content-Length" = some (.num n)) :
    ("Content-Length", HVal.num n) ∈ respHdrDict req r date := by
  simp only [respHdrDict, h, Option.getD]
  by_cases hc : r.cookies.isEmpty <;> simp [hc, setH]

/-- The `Content-Type` dict entry is rendered from the stored value. -/
theorem mem_respHdrDict_ct {req : Request} {r : ResponseState} {date : String}
    {m : String} (h : getH r.headers "Content-Type" = some (.str m)) :
    ("Content-Type", HVal.str m) ∈ respHdrDict req r date := by
  simp only [respHdrDict, h, Option.getD]
  by_cases hc : r.cookies.isEmpty <;> simp [hc, setH]

theorem clLine_renderHVal (n : Nat) :
    clLine n = renderHVal "Content-Length" (.num n) := by
  apply String.ext
  have h : ("Content-Length: " : String).data = "Content-Length".data ++ ": ".data := by
    decide
  simp [clLine, renderHVal_num, String.data_append, h, List.append_assoc]

theorem ctLine_renderHVal (m : String) :
    ctLine m = renderHVal "Content-Type" (.str m) := by
  apply String.ext
  have h : ("Content-Type: " : String).data = "Content-Type".data ++ ": ".data := by
    decide
  simp [ctLine, renderHVal_str, String.data_append, h, List.append_assoc]

/-- The rendered header block carries the stored `Content-Length`. -/
theorem respHdr_cl_line {req : Request} {r : ResponseState} {date : String}
    {n : Nat} (h : getH r.headers "Content-Length" = some (.num n)) :
    (clLine n).data <:+: (responseHeaderString req r date).data := by
  rw [clLine_renderHVal]
  exact respHdr_mem_line (mem_respHdrDict_cl h)

/-- The rendered header block carries the stored `Content-Type`. -/
theorem respHdr_ct_line {req : Request} {r : ResponseState} {date : String}
    {m : String} (h : getH r.headers "Content-Type" = some (.str m)) :
    (ctLine m).data <:+: (responseHeaderString req r date).data := by
  rw [ctLine_renderHVal]
  exact respHdr_mem_line (mem_respHdrDict_ct h)

/-! ## `build_response` branch characterization -/

theorem finishFile_spec (req : Request) (r : ResponseState) (fs : FS)
    (path mime base date : String) :
    (finishFile req r fs path mime base date).state =
      { status_code := some (r.status_code.getD 200),
        reason := if r.status_code = Option.none then .str "OK" else r.reason,
        headers := setH (setH r.headers "Content-Type" (.str mime))
                        "Content-Length" (.num (build_content path base fs).1.1),
        cookies := r.cookies } ∧
    (finishFile req r fs path mime base date).bytes =
      utf8 (responseHeaderString req
        (finishFile req r fs path mime base date).state date) ++
        (build_content path base fs).1.2 ∧
    (finishFile req r fs path mime base date).fs =
      (build_content path base fs).2 := by
  obtain ⟨sc, rs, hd, ck⟩ := r
  cases sc <;> simp [finishFile, Option.getD]

/-- In the non-dynamic case, `build_response` is a `finishFile` call on
a state differing from `r` at most in `headers`. -/
theorem build_response_file (req : Request) (r : ResponseState) (fs : FS)
    (root date : String) (hs : r.reason.isStructured = false) :
    ∃ path mime base hd,
      build_response req r fs root date =
        finishFile req { r with headers := hd } fs path mime base date := by
  by_cases h1 : req.path = "/api/get-messages" ∨ req.path = "/api/get-message"
  · refine ⟨"db/message.json", "application/json", root, r.headers, ?_⟩
    simp [build_response, hs, h1]
  · by_cases h2 : req.path = "/api/get-users"
    · refine ⟨"db/user.json", "application/json", root, r.headers, ?_⟩
      simp [build_response, hs, h1, h2]
    · obtain ⟨bd, hp⟩ :=
        prepare_some r.headers (effectiveMime req.path) (effectiveMime_hasSlash req.path)
      refine ⟨req.path, effectiveMime req.path,
        if isAbs bd then bd else pathJoin root bd,
        setH r.headers "Content-Type" (.str (effectiveMime req.path)), ?_⟩
      simp only [effectiveMime] at hp
      simp [build_response, hs, h1, h2, hp, effectiveMime]

/-! ## Claim C1 -/

/-- C1: when `reason` holds a mapping or sequence, `build_response`
returns the rendered header block followed by exactly the UTF-8 JSON
serialization of that value; afterwards `status_code` is 200 if it was
unset (otherwise unchanged), `reason` is the string `"OK"`,
`headers['Content-Type']` is `'application/json'`, and
`headers['Content-Length']` is the byte length of the serialized body. -/
theorem C1_dynamic_json (req : Request) (r : ResponseState) (fs : FS)
    (root date : String) (h : r.reason.isStructured = true) :
    (build_response req r fs root date).bytes =
      utf8 (responseHeaderString req (build_response req r fs root date).state date) ++
        utf8 (Json.dumps r.reason.toJson) ∧
    (build_response req r fs root date).state.status_code =
      some (r.status_code.getD 200) ∧
    (build_response req r fs root date).state.reason = ReasonVal.str "OK" ∧
    getH (build_response req r fs root date).state.headers "Content-Type" =
      some (.str "application/json") ∧
    getH (build_response req r fs root date).state.headers "Content-Length" =
      some (.num (utf8 (Json.dumps r.reason.toJson)).length) ∧
    (build_response req r fs root date).fs = fs := by
  refine ⟨?_, ?_, ?_, ?_, ?_, ?_⟩ <;>
    simp [build_response, h, getH_setH_self, getH_setH_ne]

/-- Witness for C1 at a concrete structured reason. -/
theorem C1_dynamic_json_witness :
    (build_response reqW rJson fsEmpty "/r" "D").bytes =
      utf8 (responseHeaderString reqW (build_response reqW rJson fsEmpty "/r" "D").state "D") ++
        utf8 (Json.dumps rJson.reason.toJson) ∧
    (build_response reqW rJson fsEmpty "/r" "D").state.status_code =
      some (rJson.status_code.getD 200) ∧
    (build_response reqW rJson fsEmpty "/r" "D").state.reason = ReasonVal.str "OK" ∧
    getH (build_response reqW rJson fsEmpty "/r" "D").state.headers "Content-Type" =
      some (.str "application/json") ∧
    getH (build_response reqW rJson fsEmpty "/r" "D").state.headers "Content-Length" =
      some (.num (utf8 (Json.dumps rJson.reason.toJson)).length) ∧
    (build_response reqW rJson fsEmpty "/r" "D").fs = fsEmpty :=
  C1_dynamic_json reqW rJson fsEmpty "/r" "D" rfl

/-! ## Claim C2 -/

/-- C2 (amended): after `build_response`, `status_code` is always an
integer (200 when previously unset) and `reason` is never a mapping or
sequence; when `status_code` was unset, `reason` is the string `"OK"`.
(`reason` can remain `None` when `status_code` was pre-set — see the
counterexample.) -/
theorem C2_amended_status_reason (req : Request) (r : ResponseState) (fs : FS)
    (root date : String) :
    (build_response req r fs root date).state.status_code =
      some (r.status_code.getD 200) ∧
    ((build_response req r fs root date).state.reason).isStructured = false ∧
    (r.status_code = Option.none →
      (build_response req r fs root date).state.reason = ReasonVal.str "OK") := by
  by_cases hs : r.reason.isStructured
  · have h1 : (build_response req r fs root date).state.reason = ReasonVal.str "OK" := by
      simp [build_response, hs]
    refine ⟨by simp [build_response, hs], ?_, fun _ => h1⟩
    rw [h1]
    rfl
  · have hs' : r.reason.isStructured = false := by simpa using hs
    obtain ⟨path, mime, base, hd, heq⟩ := build_response_file req r fs root date hs'
    rw [heq, (finishFile_spec req _ fs path mime base date).1]
    refine ⟨rfl, ?_, ?_⟩
    · by_cases hn : r.status_code = Option.none
      · simp [hn, ReasonVal.isStructured]
      · simp [hn, hs']
    · intro hn
      simp [hn]

/-- C2 counterexample: with `status_code` pre-set to 201 and `reason`
left as `None`, `build_response` completes with `reason` still `None` —
not a plain string as the claim demands. -/
theorem C2_counterexample :
    (build_response reqW rPre fsEmpty "/r" "D").state.reason = ReasonVal.none ∧
    ((build_response reqW rPre fsEmpty "/r" "D").state.reason).isPlainStr = false := by
  constructor
  · rfl
  · rfl

/-- Witness for the amended C2 on a fresh response. -/
theorem C2_amended_witness :
    (build_response reqW rPlain fsEmpty "/r" "D").state.status_code = some 200 ∧
    (build_response reqW rPlain fsEmpty "/r" "D").state.reason = ReasonVal.str "OK" := by
  have h := C2_amended_status_reason reqW rPlain fsEmpty "/r" "D"
  exact ⟨h.1, h.2.2 rfl⟩

/-! ## Claim C3 -/

/-- `build_notfound` ignores the response state. -/
theorem build_notfound_eq (r : ResponseState) :
    build_notfound r = utf8 notfoundString := rfl

/-- `build_unauthorized` ignores the response state, and its
`Content-Length` literal computes to 16. -/
theorem build_unauthorized_eq (r : ResponseState) :
    build_unauthorized r =
      utf8 "HTTP/1.1 401 Unauthorized\r\nContent-Type: text/plain\r\nContent-Length: 16\r\nConnection: close\r\n\r\n401 Unauthorized" :=
  congrArg utf8 (by decide)

/-- C3: in every byte sequence returned by `build_response`,
`build_notfound` or `build_unauthorized`, the `Content-Length` header
value equals the exact byte length of the body following the blank line
that terminates the header block. -/
theorem C3_content_length_exact (req : Request) (r : ResponseState) (fs : FS)
    (root date : String) :
    contentLengthExact (build_response req r fs root date).bytes ∧
    contentLengthExact (build_notfound r) ∧
    contentLengthExact (build_unauthorized r) := by
  refine ⟨?_, ?_, ?_⟩
  · by_cases hs : r.reason.isStructured
    · refine ⟨responseHeaderString req (build_response req r fs root date).state date,
        utf8 (Json.dumps r.reason.toJson), ?_, respHdr_ends _ _ _, ?_⟩
      · simp [build_response, hs]
      · apply respHdr_cl_line
        simp [build_response, hs, getH_setH_self]
    · have hs' : r.reason.isStructured = false := by simpa using hs
      obtain ⟨path, mime, base, hd, heq⟩ := build_response_file req r fs root date hs'
      obtain ⟨hstate, hbytes, -⟩ :=
        finishFile_spec req { r with headers := hd } fs path mime base date
      rw [heq]
      refine ⟨responseHeaderString req
          (finishFile req { r with headers := hd } fs path mime base date).state date,
        (build_content path base fs).1.2, hbytes, respHdr_ends _ _ _, ?_⟩
      apply respHdr_cl_line
      rw [hstate, ← build_content_len]
      simp [getH_setH_self]
  · refine ⟨"HTTP/1.1 404 Not Found\r\nContent-Type: text/html\r\nContent-Length: 13\r\nConnection: close\r\n\r\n",
      utf8 "404 Not Found", ?_, by decide, by decide⟩
    rw [build_notfound_eq]
    decide
  · refine ⟨"HTTP/1.1 401 Unauthorized\r\nContent-Type: text/plain\r\nContent-Length: 16\r\nConnection: close\r\n\r\n",
      utf8 "401 Unauthorized", ?_, by decide, by decide⟩
    rw [build_unauthorized_eq]
    decide

/-! ## Claim C6 -/

/-- C6: a missing or unreadable file makes `build_content` return
`(0, b"")` without mutating anything; consequently `build_response` on
a file system with no readable files still returns a complete response
with an empty body, defaulting the status to 200. -/
theorem C6_soft_missing (path base : String) (fs : FS) (req : Request)
    (r : ResponseState) (root date : String) :
    ((fs (contentPath base path) = FileResult.notFound ∨
      fs (contentPath base path) = FileResult.ioError) →
      build_content path base fs = ((0, []), fs)) ∧
    ((∀ p c, fs p ≠ FileResult.found c) → r.reason.isStructured = false →
      r.status_code = Option.none →
      (build_response req r fs root date).bytes =
        utf8 (responseHeaderString req (build_response req r fs root date).state date) ∧
      (build_response req r fs root date).state.status_code = some 200) := by
  constructor
  · rintro (h | h) <;> simp [build_content, h]
  · intro hmiss hs hsc
    obtain ⟨p2, mime, base2, hd, heq⟩ := build_response_file req r fs root date hs
    obtain ⟨hstate, hbytes, -⟩ :=
      finishFile_spec req { r with headers := hd } fs p2 mime base2 date
    have hbc : build_content p2 base2 fs = ((0, []), fs) := by
      cases h2 : fs (contentPath base2 p2) with
      | found c => exact absurd h2 (hmiss _ c)
      | notFound => simp [build_content, h2]
      | ioError => simp [build_content, h2]
    rw [heq]
    constructor
    · rw [hbytes, hbc]
      simp
    · rw [hstate]
      simp [hsc]

/-- Witness for C6: an empty file system. -/
theorem C6_soft_missing_witness :
    build_content "x" "" fsEmpty = ((0, []), fsEmpty) ∧
    (build_response reqW rPlain fsEmpty "/r" "D").state.status_code = some 200 := by
  have h := C6_soft_missing "x" "" fsEmpty reqW rPlain "/r" "D"
  exact ⟨h.1 (Or.inl rfl),
    (h.2 (fun p c hc => FileResult.noConfusion hc) rfl rfl).2⟩

/-! ## Claim C4 -/

/-- C4 counterexample: the code tests `path.endswith("return.json")`,
not the resolved filename.  For the path `xreturn.json` the resolved
filename is `xreturn.json` (not `return.json`), yet a successful read
truncates the file — contradicting the claim's "exactly when the
resolved path's filename is exactly `return.json`". -/
theorem C4_counterexample :
    fileName (contentPath "" "xreturn.json") ≠ "return.json" ∧
    fsC4 (contentPath "" "xreturn.json") = FileResult.found [49] ∧
    (build_content "xreturn.json" "" fsC4).1 = (1, [49]) ∧
    (build_content "xreturn.json" "" fsC4).2 (contentPath "" "xreturn.json") =
      FileResult.found [] := by
  refine ⟨by decide, rfl, rfl, rfl⟩

/-- C4 (amended): the truncate-to-empty side effect occurs exactly when
the *path argument ends with the string* `return.json` and the read
succeeded; in every other situation (other path, or failed read) the
file system is left unchanged. -/
theorem C4_amended_truncate (path base : String) (fs : FS) :
    (∀ c, fs (contentPath base path) = FileResult.found c →
      ((build_content path base fs).2 (contentPath base path) =
        (if pyEndsWith path "return.json" then FileResult.found [] else .found c)) ∧
      (∀ p, p ≠ contentPath base path → (build_content path base fs).2 p = fs p)) ∧
    (pyEndsWith path "return.json" = false → (build_content path base fs).2 = fs) ∧
    ((fs (contentPath base path) = FileResult.notFound ∨
      fs (contentPath base path) = FileResult.ioError) →
      (build_content path base fs).2 = fs) := by
  refine ⟨?_, ?_, ?_⟩
  · intro c hc
    constructor
    · by_cases he : pyEndsWith path "return.json" <;> simp [build_content, hc, he]
    · intro p hp
      by_cases he : pyEndsWith path "return.json" <;> simp [build_content, hc, he, hp]
  · intro he
    cases h2 : fs (contentPath base path) <;> simp [build_content, h2, he]
  · rintro (h | h) <;> simp [build_content, h]

/-- Witness for the amended C4: a consumed `return.json` and an
untouched ordinary file. -/
theorem C4_amended_truncate_witness :
    (build_content "return.json" "" fsRet).2 (contentPath "" "return.json") =
      FileResult.found [] ∧
    (build_content "xalpha.txt" "" fsEmpty).2 = fsEmpty := by
  constructor
  · have h := ((C4_amended_truncate "return.json" "" fsRet).1 [49, 50] rfl).1
    rw [h]
    decide
  · exact (C4_amended_truncate "xalpha.txt" "" fsEmpty).2.1 (by decide)

/-! ## Claim C5 -/

/-- C5 counterexample: a malformed MIME string with no `/` makes
`mime_type.split('/', 1)` unpacking raise `ValueError` (modelled as
`none`), rather than returning the static fallback directory. -/
theorem C5_counterexample :
    prepare_content_type [] "texthtml" = Option.none := rfl

/-- C5 (amended): a MIME string of the form `main/sub` with a main type
other than text/image/application/video resolves to the static fallback
directory; a MIME string with no `/` raises (which `build_response`
maps to the fixed 404). -/
theorem C5_amended_fallback (m : String) (hd : Headers) :
    (∀ main sub, splitOnceSlash m = some (main, sub) →
      main ≠ "text" → main ≠ "image" → main ≠ "application" → main ≠ "video" →
      prepare_content_type hd m =
        some (BASE_DIR ++ "static/", setH hd "Content-Type" (.str m))) ∧
    (splitOnceSlash m = Option.none → prepare_content_type hd m = Option.none) := by
  constructor
  · intro main sub hsp h1 h2 h3 h4
    simp [prepare_content_type, hsp, h1, h2, h3, h4]
  · intro hsp
    simp [prepare_content_type, hsp]

/-- Witness for the amended C5: an unknown main type falls back to the
static directory; a slash-free string raises. -/
theorem C5_amended_fallback_witness :
    prepare_content_type [] "audio/mpeg" =
      some (BASE_DIR ++ "static/", setH [] "Content-Type" (HVal.str "audio/mpeg")) ∧
    prepare_content_type [] "noslash" = Option.none := by
  refine ⟨(C5_amended_fallback "audio/mpeg" []).1 "audio" "mpeg" rfl
      (by decide) (by decide) (by decide) (by decide),
    (C5_amended_fallback "noslash" []).2 rfl⟩

/-! ## Claim C7 -/

/-- C7: for an existing non-empty file whose path ends in
`return.json`, two successive `build_content` calls (no intervening
write) yield the non-empty content first and empty content second. -/
theorem C7_return_json_twice (path base : String) (fs : FS) (c : Bytes)
    (hend : pyEndsWith path "return.json" = true)
    (hfound : fs (contentPath base path) = FileResult.found c)
    (hne : c ≠ []) :
    (build_content path base fs).1 = (c.length, c) ∧ c ≠ [] ∧
    (build_content path base (build_content path base fs).2).1 = (0, []) := by
  have h1 : build_content path base fs =
      ((c.length, c),
        fun p => if p = contentPath base path then FileResult.found [] else fs p) := by
    simp [build_content, hfound, hend]
  refine ⟨by rw [h1], hne, ?_⟩
  rw [h1]
  simp [build_content, hend]

/-- Witness for C7: a two-byte `return.json` consumed on first read. -/
theorem C7_return_json_twice_witness :
    (build_content "return.json" "" fsRet).1 = (2, [49, 50]) ∧
    (build_content "return.json" "" (build_content "return.json" "" fsRet).2).1 =
      (0, []) := by
  have h := C7_return_json_twice "return.json" "" fsRet [49, 50]
    (by decide) rfl (by decide)
  exact ⟨h.1, h.2.2⟩

/-! ## Claim C8 -/

/-- C8: for a request to `/api/get-users` (with no structured payload
attached), the body is exactly the bytes of `db/user.json` under the
project root (empty when absent or unreadable), and the `Content-Type`
header — both in the state and rendered — is `application/json`. -/
theorem C8_get_users (req : Request) (r : ResponseState) (fs : FS) (root date : String)
    (hpath : req.path = "/api/get-users") (hs : r.reason.isStructured = false) :
    (build_response req r fs root date).bytes =
      utf8 (responseHeaderString req (build_response req r fs root date).state date) ++
        (match fs (contentPath root "db/user.json") with
         | .found c => c
         | _ => []) ∧
    getH (build_response req r fs root date).state.headers "Content-Type" =
      some (.str "application/json") ∧
    (ctLine "application/json").data <:+:
      (responseHeaderString req (build_response req r fs root date).state date).data := by
  have heq : build_response req r fs root date =
      finishFile req r fs "db/user.json" "application/json" root date := by
    simp [build_response, hs, hpath]
  obtain ⟨hstate, hbytes, -⟩ :=
    finishFile_spec req r fs "db/user.json" "application/json" root date
  have hbody : (build_content "db/user.json" root fs).1.2 =
      (match fs (contentPath root "db/user.json") with
       | .found c => c
       | _ => []) := by
    cases h2 : fs (contentPath root "db/user.json") <;> simp [build_content, h2]
  have hCT : getH (finishFile req r fs "db/user.json" "application/json" root date).state.headers
      "Content-Type" = some (.str "application/json") := by
    rw [hstate]
    simp [getH_setH_self, getH_setH_ne]
  rw [heq]
  refine ⟨?_, hCT, respHdr_ct_line hCT⟩
  rw [hbytes, hbody]

/-- Witness for C8: serving a concrete two-byte `db/user.json`. -/
theorem C8_get_users_witness :
    (build_response reqUsers rPlain fsUsers "/r" "D").bytes =
      utf8 (responseHeaderString reqUsers
        (build_response reqUsers rPlain fsUsers "/r" "D").state "D") ++
        (match fsUsers (contentPath "/r" "db/user.json") with
         | .found c => c
         | _ => []) ∧
    getH (build_response reqUsers rPlain fsUsers "/r" "D").state.headers "Content-Type" =
      some (.str "application/json") ∧
    (ctLine "application/json").data <:+:
      (responseHeaderString reqUsers
        (build_response reqUsers rPlain fsUsers "/r" "D").state "D").data :=
  C8_get_users reqUsers rPlain fsUsers "/r" "D" rfl rfl

/-! ## Claim C9 -/

/-- C9: `build_notfound` ignores all mutable state and always returns
the same byte sequence: a status line starting `HTTP/1.1 404`, the
exactly-13-byte body `404 Not Found`, and header lines
`Content-Type: text/html` and `Connection: close`. -/
theorem C9_notfound_constant (r r' : ResponseState) :
    build_notfound r = build_notfound r' ∧
    build_notfound r =
      utf8 "HTTP/1.1 404 Not Found\r\nContent-Type: text/html\r\nContent-Length: 13\r\nConnection: close\r\n\r\n" ++
        utf8 "404 Not Found" ∧
    (utf8 "404 Not Found").length = 13 ∧
    utf8 "HTTP/1.1 404" <+: build_notfound r ∧
    ("Content-Type: text/html\r\n").data <:+: notfoundString.data ∧
    ("Connection: close\r\n").data <:+: notfoundString.data := by
  refine ⟨rfl, ?_, by decide, ?_, by decide, by decide⟩
  · rw [build_notfound_eq]
    decide
  · rw [build_notfound_eq]
    decide

/-! ## Claim C10 -/

/-- C10: rendering a header while `status_code` is still `None` does
not raise and does not default it — the status line literally reads
`HTTP/1.1 None ` followed by the displayed reason; and every falsy
reason (`None`, the empty string), like the structured ones, is
displayed as `OK`. -/
theorem C10_none_status_line (req : Request) (r : ResponseState) (date : String)
    (h : r.status_code = Option.none) :
    (∃ rest, responseHeaderString req r date =
      "HTTP/1.1 None " ++ (displayReason r.reason ++ ("\r\n" ++ rest))) ∧
    displayReason ReasonVal.none = "OK" ∧
    displayReason (ReasonVal.str "") = "OK" ∧
    (∀ s, s ≠ "" → displayReason (ReasonVal.str s) = s) ∧
    (∀ xs, displayReason (ReasonVal.jarr xs) = "OK") ∧
    (∀ kvs, displayReason (ReasonVal.jobj kvs) = "OK") := by
  refine ⟨?_, rfl, rfl, fun s hs => by simp [displayReason, hs],
    fun xs => rfl, fun kvs => rfl⟩
  refine ⟨renderHeaderLines (respHdrDict req r date) ++ "\r\n", ?_⟩
  simp only [responseHeaderString, h, statusStr]
  apply String.ext
  have hx : ("HTTP/1.1 None " : String).data =
      "HTTP/1.1 ".data ++ ("None".data ++ " ".data) := by decide
  simp [String.data_append, hx, List.append_assoc]

/-- Witness for C10 on a fresh response (status unset, reason `None`). -/
theorem C10_none_status_line_witness :
    (∃ rest, responseHeaderString reqW rPlain "D" =
      "HTTP/1.1 None " ++ (displayReason rPlain.reason ++ ("\r\n" ++ rest))) ∧
    displayReason ReasonVal.none = "OK" ∧
    displayReason (ReasonVal.str "") = "OK" :=
  ⟨(C10_none_status_line reqW rPlain "D" rfl).1,
   (C10_none_status_line reqW rPlain "D" rfl).2.1,
   (C10_none_status_line reqW rPlain "D" rfl).2.2.1⟩
